import Mathlib

/-!
Shallow embedding of the ontoweaver tabular mapping engine
(src/ontoweaver/tabular.py, src/ontoweaver/transformer.py, src/ontoweaver/base.py).

Rows are association lists from column names to string cell values.
Python exceptions are modelled with the Except monad: a thrown value is an
uncaught or raised exception that aborts the processing of the row, while the
errors field of a RowResult collects the messages appended to local_errors by
process_row when the error manager runs with raise_errors set to False.

The validate module of the repository is not present under src.
Modelled from the spec: an OutputValidator is a pass or fail predicate over a
single extracted value, so validators are embedded as functions String to Bool;
the default validator accepts every value.
-/

/-- Kinds of errors raised or recorded by the engine. The first group mirrors
the exceptions module (TransformerInterfaceError, DeclarationError, ConfigError,
TransformerDataError, TransformerInputError, DataValidationError); keyError,
indexError and attributeError model uncaught Python exceptions. -/
inductive Err where
  | transformerInterface
  | declaration
  | config
  | transformerData
  | transformerInput
  | dataValidation
  | keyError
  | indexError
  | attributeError
deriving DecidableEq, Repr

/-- Where to add the type annotation in identifiers, from tabular.TypeAffixes.
The constructor pre stands for the prefix affix of the source. -/
inductive TypeAffixes where
  | pre
  | suffix
  | none
deriving DecidableEq, Repr

/-- A table row: an association list from column names to string cell values. -/
abbrev Row := List (String × String)

/-- Cell lookup, modelling row[key] access and the `key in row` test. -/
def rowGet (row : Row) (key : String) : Option String :=
  match row.find? (fun p => p.1 == key) with
  | Option.some p => Option.some p.2
  | Option.none => Option.none

/-- The apostrophe character, code 39. -/
def apostropheChar : Char := Char.ofNat 39

/-- The backtick character, code 96. -/
def backtickChar : Char := Char.ofNat 96

/-- Replacement of every single quote by a backtick, as done on property values
in PandasAdapter.properties (tabular.py line 213). -/
def replaceQuotes (s : String) : String :=
  String.mk (s.data.map (fun c => if c = apostropheChar then backtickChar else c))

/-- Transformer.create (base.py lines 509 to 518): stringify the item (identity
on strings) and return it when the output validator passes, otherwise return a
falsy value so that the item is suppressed. The validator is spec-modelled as a
pass or fail predicate, the validate module being absent from src. -/
def create (output_validator : String → Bool) (item : String) : Option String :=
  match output_validator item with
  | true => Option.some item
  | false => Option.none

/-- The failure branch of Transformer.create through ErrorManager.error
(base.py lines 515 to 518): the pandera schema signals a failing value by
raising SchemaErrors, and the except branch calls self.error with
DataValidationError, which raises it in raise mode (aborting the row) and in
collect mode only logs it and lets create return a falsy value, so the value
is suppressed without being appended to the run error list. -/
def createE (raise_errors : Bool) (output_validator : String → Bool) (item : String) :
    Except Err (Option String) :=
  match create output_validator item with
  | Option.some res => Except.ok (Option.some res)
  | Option.none =>
    if raise_errors then Except.error Err.dataValidation else Except.ok Option.none

/-- Column loop of the map transformer (transformer.py lines 237 to 244):
for each declared column, error when the column is absent from the row,
otherwise yield the created value when it is truthy. The first component is the
list of values yielded so far, the second the exception that interrupts the
generator, if any. -/
def map_loop (ov : String → Bool) (row : Row) : List String → List String → List String × Option Err
  | acc, [] => (acc, Option.none)
  | acc, key :: rest =>
    match rowGet row key with
    | Option.none => (acc, Option.some Err.transformerData)
    | Option.some v =>
      match create ov v with
      | Option.some res => map_loop ov row (if res = "" then acc else acc ++ [res]) rest
      | Option.none => map_loop ov row acc rest

/-- The map transformer call (transformer.py lines 220 to 244): error when no
column is declared, else yield each created column value. -/
def map_call (ov : String → Bool) (columns : List String) (row : Row) : List String × Option Err :=
  if columns = [] then ([], Option.some Err.transformerInput)
  else map_loop ov row [] columns

/-- Column loop of the cat transformer (transformer.py lines 100 to 119):
formatted_items accumulates the concatenation of the cell values seen so far,
and create is called inside the loop, once per column. A missing column raises
a KeyError through row[key]. -/
def cat_loop (ov : String → Bool) (row : Row) : String → List String → List String → List String × Option Err
  | _fi, acc, [] => (acc, Option.none)
  | fi, acc, key :: rest =>
    match rowGet row key with
    | Option.none => (acc, Option.some Err.keyError)
    | Option.some v =>
      match create ov (fi ++ v) with
      | Option.some res => cat_loop ov row (fi ++ v) (if res = "" then acc else acc ++ [res]) rest
      | Option.none => cat_loop ov row (fi ++ v) acc rest

/-- The cat transformer call (transformer.py lines 100 to 119). -/
def cat_call (ov : String → Bool) (columns : List String) (row : Row) : List String × Option Err :=
  cat_loop ov row "" [] columns

/-- One property sub-transformer attached to a property name, an entry of a
properties_of dictionary of the configuration. -/
structure PropSpec where
  extract : Row → Nat → List String × Option Err
  name : String

/-- Python dict assignment d[k] = v on an insertion-ordered association list:
overwrite the value in place when the key exists, else append the pair. -/
def dictSet (m : List (String × String)) (k v : String) : List (String × String) :=
  if m.any (fun p => p.1 == k) then m.map (fun p => if p.1 == k then (k, v) else p)
  else m ++ [(k, v)]

/-- Loop over the property dictionary in PandasAdapter.properties (tabular.py
lines 211 to 213): every value yielded by a property sub-transformer is stored,
after quote sanitization, under its property name. An exception from a
sub-transformer propagates. -/
def prop_loop (row : Row) (i : Nat) : List (String × String) → List PropSpec → Except Err (List (String × String))
  | m, [] => Except.ok m
  | m, ps :: rest =>
    match (ps.extract row i).2 with
    | Option.some e => Except.error e
    | Option.none =>
      prop_loop row i ((ps.extract row i).1.foldl (fun m2 v => dictSet m2 ps.name (replaceQuotes v)) m) rest

/-- Metadata lookup by element type name. -/
def lookupMeta : List (String × List (String × String)) → String → Option (List (String × String))
  | [], _ => Option.none
  | p :: rest, name => if p.1 = name then Option.some p.2 else lookupMeta rest name

/-- PandasAdapter.properties (tabular.py lines 193 to 225): gather the values
of the property sub-transformers, then overlay the static metadata declared for
the element type name. -/
def assemble_properties (metadata : List (String × List (String × String))) (props_of : List PropSpec)
    (row : Row) (i : Nat) (elem : String) : Except Err (List (String × String)) :=
  match prop_loop row i [] props_of with
  | Except.error e => Except.error e
  | Except.ok props =>
    match lookupMeta metadata elem with
    | Option.some kvs => Except.ok (kvs.foldl (fun m kv => dictSet m kv.1 kv.2) props)
    | Option.none => Except.ok props

/-- The identifier string built by PandasAdapter.make_id for each affix policy
(tabular.py lines 161 to 166). -/
def affix_id : TypeAffixes → String → String → String → String
  | TypeAffixes.pre, sep, ty, name => ty ++ sep ++ name
  | TypeAffixes.suffix, sep, ty, name => name ++ sep ++ ty
  | TypeAffixes.none, _, _, name => name

/-- PandasAdapter.make_id (tabular.py lines 141 to 172): return the affixed
identifier when it is truthy, else signal a declaration error (none). -/
def make_id (a : TypeAffixes) (sep ty name : String) : Option String :=
  if affix_id a sep ty name = "" then Option.none
  else Option.some (affix_id a sep ty name)

/-- The make_id error path through ErrorManager.error (base.py lines 29 to 46):
with raise_errors the declaration error is raised, otherwise it is only logged
and make_id returns None. -/
def make_idE (raise_errors : Bool) (a : TypeAffixes) (sep ty name : String) : Except Err (Option String) :=
  match make_id a sep ty name with
  | Option.some id => Except.ok (Option.some id)
  | Option.none => if raise_errors then Except.error Err.declaration else Except.ok Option.none

/-- A call to local_errors.append(self.error(...)) in process_row: with
raise_errors the exception is raised, otherwise the error is appended to the
local error list and processing continues. -/
def emit_error : Bool → List Err → Err → Except Err (List Err)
  | true, _, k => Except.error k
  | false, errs, k => Except.ok (errs ++ [k])

/-- A configured transformer instance as used by PandasAdapter.run: its call
yields string values for a row (with an optional interrupting exception), and
it carries the target node type name, the edge type name, the optional
from_subject redirection, its properties_of dictionary and the edge class
property dictionary returned by transformer.edge.fields(). -/
structure Transformer where
  call : Row → Nat → List String × Option Err
  target : String
  edge : String
  from_subject : Option String
  properties_of : List PropSpec
  edge_fields : List PropSpec

/-- The adapter configuration: error policy, affix policy and separator,
metadata, the subject transformer and the transformer list. -/
structure Config where
  raise_errors : Bool
  type_affix : TypeAffixes
  type_affix_sep : String
  metadata : List (String × List (String × String))
  subject_transformer : Transformer
  transformers : List Transformer

/-- A node tuple (id, label, properties) as produced by Node.as_tuple. -/
abbrev NodeTuple := String × String × List (String × String)

/-- An edge tuple (id, id_source, id_target, label, properties) as produced by
Edge.as_tuple (base.py lines 252 to 262). -/
abbrev EdgeTuple := String × String × String × String × List (String × String)

/-- Decidable equality for the tail of an edge tuple, registered explicitly so
that deeper products synthesize in one step. -/
instance : DecidableEq (String × String × String × List (String × String)) := inferInstance

/-- Decidable equality for edge tuples. -/
instance : DecidableEq EdgeTuple := inferInstance

/-- The outcome of processing one row: local_nodes, local_edges, local_errors. -/
structure RowResult where
  nodes : List NodeTuple
  edges : List EdgeTuple
  errors : List Err
deriving DecidableEq, Repr

/-- Node id as stored by Element under the Node constructor: a falsy id
(None or the empty string) becomes the empty string. -/
def pyNodeId : Option String → String
  | Option.some s => s
  | Option.none => ""

/-- Edge endpoint id as stored by Edge: str(id), so None becomes "None". -/
def pyEdgeEnd : Option String → String
  | Option.some s => s
  | Option.none => "None"

/-- Inner loop of the from_subject redirection (tabular.py lines 330 to 339):
for every value yielded by the matching transformer t, build an edge from that
value toward the current target. -/
def edge_loop (cfg : Config) (row : Row) (i : Nat) (tr t : Transformer) (tnid? : Option String) :
    RowResult → List String → Except Err RowResult
  | acc, [] => Except.ok acc
  | acc, s_id :: rest =>
    match make_idE cfg.raise_errors cfg.type_affix cfg.type_affix_sep t.target s_id with
    | Except.error e => Except.error e
    | Except.ok snid? =>
      match assemble_properties cfg.metadata tr.properties_of row i t.edge with
      | Except.error e => Except.error e
      | Except.ok edge_props =>
        edge_loop cfg row i tr t tnid?
          { acc with edges := acc.edges ++ [("", pyEdgeEnd snid?, pyEdgeEnd tnid?, tr.edge, edge_props)] } rest

/-- Search over the transformer list for a from_subject redirection
(tabular.py lines 327 to 342): the transformers whose target type name equals
the declared redirection contribute edges; the others are skipped. -/
def redirect_loop (cfg : Config) (row : Row) (i : Nat) (tr : Transformer) (tnid? : Option String) (fs : String) :
    RowResult → List Transformer → Except Err RowResult
  | acc, [] => Except.ok acc
  | acc, t :: rest =>
    if fs = t.target then
      match edge_loop cfg row i tr t tnid? acc (t.call row i).1 with
      | Except.error e => Except.error e
      | Except.ok acc1 =>
        match (t.call row i).2 with
        | Option.some e => Except.error e
        | Option.none => redirect_loop cfg row i tr tnid? fs acc1 rest
    else redirect_loop cfg row i tr tnid? fs acc rest

/-- Processing of one value yielded by a transformer (tabular.py lines 306 to
358): empty values get a transformer-data error; valid values produce a target
node, then either redirected edges (with a config error when no transformer
matches the from_subject name) or a single edge from the row subject. -/
def process_value (cfg : Config) (row : Row) (i : Nat) (source_node_id : String) (tr : Transformer)
    (acc : RowResult) (target_id : String) : Except Err RowResult :=
  if target_id = "" then
    match emit_error cfg.raise_errors acc.errors Err.transformerData with
    | Except.error e => Except.error e
    | Except.ok errs => Except.ok { acc with errors := errs }
  else
    match make_idE cfg.raise_errors cfg.type_affix cfg.type_affix_sep tr.target target_id with
    | Except.error e => Except.error e
    | Except.ok tnid? =>
      match assemble_properties cfg.metadata tr.properties_of row i tr.target with
      | Except.error e => Except.error e
      | Except.ok node_props =>
        match tr.from_subject with
        | Option.some fs =>
          match redirect_loop cfg row i tr tnid? fs
              { acc with nodes := acc.nodes ++ [(pyNodeId tnid?, tr.target, node_props)] }
              cfg.transformers with
          | Except.error e => Except.error e
          | Except.ok acc2 =>
            if cfg.transformers.any (fun t => fs == t.target) then Except.ok acc2
            else
              match emit_error cfg.raise_errors acc2.errors Err.config with
              | Except.error e => Except.error e
              | Except.ok errs => Except.ok { acc2 with errors := errs }
        | Option.none =>
          match assemble_properties cfg.metadata tr.edge_fields row i tr.edge with
          | Except.error e => Except.error e
          | Except.ok edge_props =>
            Except.ok { acc with
              nodes := acc.nodes ++ [(pyNodeId tnid?, tr.target, node_props)],
              edges := acc.edges ++ [("", source_node_id, pyEdgeEnd tnid?, tr.edge, edge_props)] }

/-- Loop over the values yielded by one transformer for the row. -/
def process_values (cfg : Config) (row : Row) (i : Nat) (source_node_id : String) (tr : Transformer) :
    RowResult → List String → Except Err RowResult
  | acc, [] => Except.ok acc
  | acc, v :: rest =>
    match process_value cfg row i source_node_id tr acc v with
    | Except.error e => Except.error e
    | Except.ok acc1 => process_values cfg row i source_node_id tr acc1 rest

/-- Loop over the configured transformer instances (tabular.py line 303):
the values already yielded are processed before an exception raised by the
generator propagates. -/
def transformer_loop (cfg : Config) (row : Row) (i : Nat) (source_node_id : String) :
    RowResult → List Transformer → Except Err RowResult
  | acc, [] => Except.ok acc
  | acc, tr :: rest =>
    match process_values cfg row i source_node_id tr acc (tr.call row i).1 with
    | Except.error e => Except.error e
    | Except.ok acc1 =>
      match (tr.call row i).2 with
      | Option.some e => Except.error e
      | Option.none => transformer_loop cfg row i source_node_id acc1 rest

/-- Body of process_row after the subject transformer has been forced into the
list ids (tabular.py lines 286 to 299): a transformer-interface error when more
than one id was yielded, an uncaught IndexError on ids[0] when none was, then
the subject node and the transformer loop. -/
def process_row_with_ids (cfg : Config) (row : Row) (i : Nat) (ids : List String) : Except Err RowResult :=
  match (if 1 < ids.length then emit_error cfg.raise_errors [] Err.transformerInterface else Except.ok []) with
  | Except.error e => Except.error e
  | Except.ok errs0 =>
    match ids.head? with
    | Option.none => Except.error Err.indexError
    | Option.some source_id =>
      match make_idE cfg.raise_errors cfg.type_affix cfg.type_affix_sep cfg.subject_transformer.target source_id with
      | Except.error e => Except.error e
      | Except.ok (Option.some snid) =>
        match assemble_properties cfg.metadata cfg.subject_transformer.properties_of row i
            cfg.subject_transformer.target with
        | Except.error e => Except.error e
        | Except.ok props =>
          transformer_loop cfg row i snid
            ⟨[(snid, cfg.subject_transformer.target, props)], [], errs0⟩ cfg.transformers
      | Except.ok Option.none =>
        match emit_error cfg.raise_errors errs0 Err.declaration with
        | Except.error e => Except.error e
        | Except.ok errs1 =>
          transformer_loop cfg row i "None" ⟨[], [], errs1⟩ cfg.transformers

/-- PandasAdapter.run.process_row (tabular.py lines 273 to 360). -/
def process_row (cfg : Config) (row : Row) (i : Nat) : Except Err RowResult :=
  match (cfg.subject_transformer.call row i).2 with
  | Option.some e => Except.error e
  | Option.none => process_row_with_ids cfg row i (cfg.subject_transformer.call row i).1

/-- Sequential accumulation of PandasAdapter.run (tabular.py lines 389 to 398):
rows processed in order, nodes, edges and errors appended per row; a raised
exception aborts the run. -/
def run_rows (cfg : Config) : Nat → List NodeTuple × List EdgeTuple × List Err → List Row →
    Except Err (List NodeTuple × List EdgeTuple × List Err)
  | _, acc, [] => Except.ok acc
  | i, (ns, es, errs), row :: rest =>
    match process_row cfg row i with
    | Except.error e => Except.error e
    | Except.ok r => run_rows cfg (i + 1) (ns ++ r.nodes, es ++ r.edges, errs ++ r.errors) rest

/-- Sequential run over a list of rows, starting at index 0. -/
def run (cfg : Config) (rows : List Row) : Except Err (List NodeTuple × List EdgeTuple × List Err) :=
  run_rows cfg 0 ([], [], []) rows

/-- A registered type descriptor: a node class (tabular.py make_node_class,
whose static fields function returns the list of property names, i.e. the
values of the properties dictionary) or an edge class (make_edge_class, whose
fields function returns the dictionary itself and which carries the source type
and the ordered target type list). -/
inductive TypeDescr where
  | node (fields : List String)
  | edge (source : String) (targets : List String) (fields : List (String × String))
deriving DecidableEq, Repr

/-- The module namespace holding declared classes: an insertion-ordered
association list from type names to descriptors. -/
abbrev Registry := List (String × TypeDescr)

/-- hasattr plus getattr on the module: lookup of a declared type by name. -/
def lookupType : Registry → String → Option TypeDescr
  | [], _ => Option.none
  | p :: rest, name => if p.1 = name then Option.some p.2 else lookupType rest name

/-- In-place overwrite of an existing attribute of the module, as done by the
re-declaration path of make_edge_class; appends when the name is absent. -/
def setType : Registry → String → TypeDescr → Registry
  | [], name, d => [(name, d)]
  | p :: rest, name, d => if p.1 = name then (p.1, d) :: rest else p :: setType rest name d

/-- Declare.make_node_class (tabular.py lines 463 to 495): return the existing
class unchanged when the name is already registered (mismatching properties are
only warned about), otherwise register a new class whose fields are exactly the
values of the properties dictionary. -/
def make_node_class (reg : Registry) (name : String) (properties : List (String × String)) :
    Registry × TypeDescr :=
  match lookupType reg name with
  | Option.some cls => (reg, cls)
  | Option.none =>
    (reg ++ [(name, TypeDescr.node (properties.map (fun p => p.2)))],
     TypeDescr.node (properties.map (fun p => p.2)))

/-- Declare.make_edge_class (tabular.py lines 497 to 550): on re-declaration the
new target type is appended in place to the existing target type list while the
source type and the fields are kept; a first declaration registers the edge
class with a one-element target list. Re-declaring a name registered as a node
class fails on target_type with an AttributeError. -/
def make_edge_class (reg : Registry) (name source_t target_t : String)
    (properties : List (String × String)) : Except Err (Registry × TypeDescr) :=
  match lookupType reg name with
  | Option.some cls =>
    match cls with
    | TypeDescr.edge s ts f =>
      Except.ok (setType reg name (TypeDescr.edge s (ts ++ [target_t]) f),
                 TypeDescr.edge s (ts ++ [target_t]) f)
    | TypeDescr.node _ => Except.error Err.attributeError
  | Option.none =>
    Except.ok (reg ++ [(name, TypeDescr.edge source_t [target_t] properties)],
               TypeDescr.edge source_t [target_t] properties)

/-- Occurrence count of an error kind in an error list. -/
def countErr (k : Err) : List Err → Nat
  | [] => 0
  | e :: rest => (if e = k then 1 else 0) + countErr k rest

/-- The default output validator: accepts every value (spec-modelled, see the
module docstring). -/
def passValidator : String → Bool := fun _ => true

/-- Subject transformer of the worked example: map on column gene_id to Gene. -/
def geneTr : Transformer :=
  { call := fun row _i => map_call passValidator ["gene_id"] row
    target := "Gene"
    edge := ""
    from_subject := Option.none
    properties_of := []
    edge_fields := [] }

/-- Structural transformer of the worked example: map on column disease_id to
Disease via edge ASSOCIATED_WITH. -/
def diseaseTr : Transformer :=
  { call := fun row _i => map_call passValidator ["disease_id"] row
    target := "Disease"
    edge := "ASSOCIATED_WITH"
    from_subject := Option.none
    properties_of := []
    edge_fields := [] }

/-- Configuration of the worked example: suffix affix with separator colon. -/
def cfgC1 : Config :=
  { raise_errors := true
    type_affix := TypeAffixes.suffix
    type_affix_sep := ":"
    metadata := []
    subject_transformer := geneTr
    transformers := [diseaseTr] }

/-- The single row of the worked example. -/
def rowC1 : Row := [("gene_id", "BRCA1"), ("disease_id", "D001")]

/-- A subject transformer yielding two values: map on two columns. -/
def subj2 : Transformer :=
  { call := fun row _i => map_call passValidator ["a", "b"] row
    target := "Gene"
    edge := ""
    from_subject := Option.none
    properties_of := []
    edge_fields := [] }

/-- Configuration with a multi-valued subject transformer, raising errors. -/
def cfg2 : Config :=
  { raise_errors := true
    type_affix := TypeAffixes.suffix
    type_affix_sep := ":"
    metadata := []
    subject_transformer := subj2
    transformers := [] }

/-- Row on which subj2 yields two values. -/
def row2 : Row := [("a", "A"), ("b", "B")]

/-- Configuration in collect mode whose subject cell is empty, so the subject
transformer yields zero values. -/
def cfg9 : Config :=
  { raise_errors := false
    type_affix := TypeAffixes.suffix
    type_affix_sep := ":"
    metadata := []
    subject_transformer := geneTr
    transformers := [diseaseTr] }

/-- Row with an empty gene_id cell. -/
def row9 : Row := [("gene_id", ""), ("disease_id", "D001")]

/-- A structural transformer declaring from_subject X that no transformer in
the list targets, yielding the values of columns c1 and c2. -/
def trC8 : Transformer :=
  { call := fun row _i => map_call passValidator ["c1", "c2"] row
    target := "Disease"
    edge := "E"
    from_subject := Option.some "X"
    properties_of := []
    edge_fields := [] }

/-- Collect-mode configuration containing trC8 as only transformer. -/
def cfgC8 : Config :=
  { raise_errors := false
    type_affix := TypeAffixes.suffix
    type_affix_sep := ":"
    metadata := []
    subject_transformer := geneTr
    transformers := [trC8] }

/-- Row on which trC8 yields two valid values. -/
def rowC8 : Row := [("gene_id", "G"), ("c1", "A"), ("c2", "B")]

/-- Row on which trC8 yields exactly one valid value (c2 is empty). -/
def rowC8w : Row := [("gene_id", "G"), ("c1", "A"), ("c2", "")]

/-- Empty accumulator used by the C8 witness. -/
def accC8 : RowResult := ⟨[], [], []⟩

/-- Row for the cat transformer evaluation. -/
def rowC3 : Row := [("a", "X"), ("b", "Y")]

/-- A string containing a single quote: i t apostrophe s. -/
def quotedSample : String := String.mk ['i', 't', apostropheChar, 's']

/-- A registry with one registered node class. -/
def regC6 : Registry := [("Gene", TypeDescr.node ["p1"])]

/-- The error branch of make_id never raises when raise_errors is off: the
declaration error is only logged and None is returned. -/
theorem make_idE_false (a : TypeAffixes) (sep ty name : String) :
    make_idE false a sep ty name = Except.ok (make_id a sep ty name) := by
  unfold make_idE
  cases h : make_id a sep ty name <;> simp [h]

/-- Registering a fresh name at the end of the registry makes it visible. -/
theorem lookupType_append_self (reg : Registry) (name : String) (d : TypeDescr)
    (h : lookupType reg name = Option.none) :
    lookupType (reg ++ [(name, d)]) name = Option.some d := by
  induction reg with
  | nil => simp [lookupType]
  | cons p rest ih =>
    rw [List.cons_append]
    unfold lookupType at h ⊢
    by_cases hp : p.1 = name
    · rw [if_pos hp] at h; exact Option.noConfusion h
    · rw [if_neg hp] at h ⊢; exact ih h

/-- Overwriting a registry entry makes the new descriptor visible. -/
theorem lookupType_setType (reg : Registry) (name : String) (d : TypeDescr) :
    lookupType (setType reg name d) name = Option.some d := by
  induction reg with
  | nil => simp [setType, lookupType]
  | cons p rest ih =>
    unfold setType
    by_cases hp : p.1 = name
    · rw [if_pos hp]; unfold lookupType; rw [if_pos hp]
    · rw [if_neg hp]; unfold lookupType; rw [if_neg hp]; exact ih

/-- Counting an error kind across a one-element extension of the error list. -/
theorem countErr_append_single (k e : Err) (l : List Err) :
    countErr k (l ++ [e]) = countErr k l + (if e = k then 1 else 0) := by
  induction l with
  | nil => simp [countErr]
  | cons x rest ih => simp [countErr, ih, Nat.add_assoc]

/-- The redirection edge loop never touches the error list. -/
theorem edge_loop_errors_eq (cfg : Config) (row : Row) (i : Nat) (tr t : Transformer) (tnid? : Option String) :
    ∀ (sIds : List String) (acc b : RowResult),
      edge_loop cfg row i tr t tnid? acc sIds = Except.ok b → b.errors = acc.errors := by
  intro sIds
  induction sIds with
  | nil =>
    intro acc b h
    unfold edge_loop at h
    injection h with h1
    rw [← h1]
  | cons s rest ih =>
    intro acc b h
    unfold edge_loop at h
    split at h
    · exact Except.noConfusion h
    · split at h
      · exact Except.noConfusion h
      · have h2 := ih _ _ h
        exact h2

/-- The redirection search never touches the error list. -/
theorem redirect_loop_errors_eq (cfg : Config) (row : Row) (i : Nat) (tr : Transformer)
    (tnid? : Option String) (fs : String) :
    ∀ (l : List Transformer) (acc b : RowResult),
      redirect_loop cfg row i tr tnid? fs acc l = Except.ok b → b.errors = acc.errors := by
  intro l
  induction l with
  | nil =>
    intro acc b h
    unfold redirect_loop at h
    injection h with h1
    rw [← h1]
  | cons t rest ih =>
    intro acc b h
    unfold redirect_loop at h
    split at h
    · split at h
      · exact Except.noConfusion h
      · rename_i acc1 heq1
        split at h
        · exact Except.noConfusion h
        · rw [ih _ _ h]
          exact edge_loop_errors_eq cfg row i tr t tnid? _ acc acc1 heq1
    · exact ih _ _ h

/-- Processing one yielded value only ever appends to the error list. -/
theorem process_value_errors_ext (cfg : Config) (row : Row) (i : Nat) (snid : String) (tr : Transformer)
    (acc : RowResult) (v : String) (b : RowResult)
    (h : process_value cfg row i snid tr acc v = Except.ok b) :
    ∃ ext, b.errors = acc.errors ++ ext := by
  unfold process_value at h
  split at h
  · split at h
    · exact Except.noConfusion h
    · rename_i errs heq
      injection h with h1
      cases hr : cfg.raise_errors
      · rw [hr] at heq
        unfold emit_error at heq
        injection heq with h2
        exact ⟨[Err.transformerData], by rw [← h1, ← h2]⟩
      · rw [hr] at heq
        unfold emit_error at heq
        exact Except.noConfusion heq
  · split at h
    · exact Except.noConfusion h
    · split at h
      · exact Except.noConfusion h
      · split at h
        · split at h
          · exact Except.noConfusion h
          · rename_i acc2 heq2
            split at h
            · injection h with h1
              have h2 := redirect_loop_errors_eq cfg row i tr _ _ _ _ _ heq2
              exact ⟨[], by rw [← h1, h2]; simp⟩
            · split at h
              · exact Except.noConfusion h
              · rename_i errs heq3
                injection h with h1
                cases hr : cfg.raise_errors
                · rw [hr] at heq3
                  unfold emit_error at heq3
                  injection heq3 with h3
                  have h2 := redirect_loop_errors_eq cfg row i tr _ _ _ _ _ heq2
                  exact ⟨[Err.config], by rw [← h1]; dsimp only; rw [← h3, h2]⟩
                · rw [hr] at heq3
                  unfold emit_error at heq3
                  exact Except.noConfusion heq3
        · split at h
          · exact Except.noConfusion h
          · injection h with h1
            exact ⟨[], by rw [← h1]; simp⟩

/-- Processing the values of one transformer only ever appends to the errors. -/
theorem process_values_errors_ext (cfg : Config) (row : Row) (i : Nat) (snid : String) (tr : Transformer) :
    ∀ (vals : List String) (acc b : RowResult),
      process_values cfg row i snid tr acc vals = Except.ok b → ∃ ext, b.errors = acc.errors ++ ext := by
  intro vals
  induction vals with
  | nil =>
    intro acc b h
    unfold process_values at h
    injection h with h1
    exact ⟨[], by rw [← h1]; simp⟩
  | cons v rest ih =>
    intro acc b h
    unfold process_values at h
    split at h
    · exact Except.noConfusion h
    · rename_i acc1 heq
      obtain ⟨e1, he1⟩ := process_value_errors_ext cfg row i snid tr acc v acc1 heq
      obtain ⟨e2, he2⟩ := ih acc1 b h
      exact ⟨e1 ++ e2, by rw [he2, he1, List.append_assoc]⟩

/-- The transformer loop only ever appends to the error list. -/
theorem transformer_loop_errors_ext (cfg : Config) (row : Row) (i : Nat) (snid : String) :
    ∀ (l : List Transformer) (acc b : RowResult),
      transformer_loop cfg row i snid acc l = Except.ok b → ∃ ext, b.errors = acc.errors ++ ext := by
  intro l
  induction l with
  | nil =>
    intro acc b h
    unfold transformer_loop at h
    injection h with h1
    exact ⟨[], by rw [← h1]; simp⟩
  | cons tr rest ih =>
    intro acc b h
    unfold transformer_loop at h
    split at h
    · exact Except.noConfusion h
    · rename_i acc1 heq
      split at h
      · exact Except.noConfusion h
      · obtain ⟨e1, he1⟩ := process_values_errors_ext cfg row i snid tr _ acc acc1 heq
        obtain ⟨e2, he2⟩ := ih acc1 b h
        exact ⟨e1 ++ e2, by rw [he2, he1, List.append_assoc]⟩

/-- When no transformer in the list has the redirected target type name, the
redirection search returns the accumulator unchanged. -/
theorem redirect_loop_no_match (cfg : Config) (row : Row) (i : Nat) (tr : Transformer)
    (tnid? : Option String) (fs : String) :
    ∀ (l : List Transformer) (acc : RowResult), (∀ t ∈ l, t.target ≠ fs) →
      redirect_loop cfg row i tr tnid? fs acc l = Except.ok acc := by
  intro l
  induction l with
  | nil => intro acc _; rfl
  | cons t rest ih =>
    intro acc h
    unfold redirect_loop
    rw [if_neg (fun he => (h t (List.mem_cons_self t rest)) he.symm)]
    exact ih acc (fun t2 ht2 => h t2 (List.mem_cons_of_mem t ht2))

/-- The found_valid_subject flag stays false when no target type matches. -/
theorem any_target_eq_false (fs : String) :
    ∀ (l : List Transformer), (∀ t ∈ l, t.target ≠ fs) →
      l.any (fun t => fs == t.target) = false := by
  intro l
  induction l with
  | nil => intro _; rfl
  | cons t rest ih =>
    intro h
    rw [List.any_cons]
    cases hbe : (fs == t.target) with
    | true => exact absurd (eq_of_beq hbe).symm (h t (List.mem_cons_self t rest))
    | false =>
      rw [Bool.false_or]
      exact ih (fun t2 ht2 => h t2 (List.mem_cons_of_mem t ht2))

/-- The property loop succeeds when every property sub-transformer succeeds. -/
theorem prop_loop_ok (row : Row) (i : Nat) :
    ∀ (props_of : List PropSpec) (m : List (String × String)),
      (∀ ps ∈ props_of, (ps.extract row i).2 = Option.none) →
      ∃ m2, prop_loop row i m props_of = Except.ok m2 := by
  intro props_of
  induction props_of with
  | nil => intro m _; exact ⟨m, rfl⟩
  | cons ps rest ih =>
    intro m h
    unfold prop_loop
    rw [h ps (List.mem_cons_self ps rest)]
    exact ih _ (fun ps2 hps2 => h ps2 (List.mem_cons_of_mem ps hps2))

/-- Property assembly succeeds when every property sub-transformer succeeds. -/
theorem assemble_properties_ok (metadata : List (String × List (String × String)))
    (props_of : List PropSpec) (row : Row) (i : Nat) (elem : String)
    (h : ∀ ps ∈ props_of, (ps.extract row i).2 = Option.none) :
    ∃ m2, assemble_properties metadata props_of row i elem = Except.ok m2 := by
  obtain ⟨m1, hm1⟩ := prop_loop_ok row i props_of [] h
  unfold assemble_properties
  rw [hm1]
  cases lookupMeta metadata elem
  · exact ⟨m1, rfl⟩
  · exact ⟨_, rfl⟩

/-- In collect mode, a valid value of a transformer whose from_subject matches
no target type produces the target node, no edge, and one config error. -/
theorem process_value_no_match (cfg : Config) (row : Row) (i : Nat) (snid : String) (tr : Transformer)
    (X : String) (nps : List (String × String)) (acc : RowResult) (v : String)
    (hre : cfg.raise_errors = false)
    (hfs : tr.from_subject = Option.some X)
    (hno : ∀ t ∈ cfg.transformers, t.target ≠ X)
    (hnps : assemble_properties cfg.metadata tr.properties_of row i tr.target = Except.ok nps)
    (hv : ¬ v = "") :
    process_value cfg row i snid tr acc v =
      Except.ok { acc with
        nodes := acc.nodes ++
          [(pyNodeId (make_id cfg.type_affix cfg.type_affix_sep tr.target v), tr.target, nps)],
        errors := acc.errors ++ [Err.config] } := by
  unfold process_value
  rw [if_neg hv, hre, make_idE_false]
  dsimp only
  rw [hnps]
  dsimp only
  rw [hfs]
  dsimp only
  rw [redirect_loop_no_match cfg row i tr _ X cfg.transformers _ hno]
  dsimp only
  rw [any_target_eq_false X cfg.transformers hno]
  rfl

/-- In collect mode, an empty value records a transformer-data error. -/
theorem process_value_empty (cfg : Config) (row : Row) (i : Nat) (snid : String) (tr : Transformer)
    (acc : RowResult) (hre : cfg.raise_errors = false) :
    process_value cfg row i snid tr acc "" =
      Except.ok { acc with errors := acc.errors ++ [Err.transformerData] } := by
  unfold process_value
  rw [if_pos rfl, hre]
  rfl

/-- In collect mode, an unmatched from_subject produces no edge and one config
error per valid value the transformer yields. -/
theorem process_values_no_match (cfg : Config) (row : Row) (i : Nat) (snid : String) (tr : Transformer)
    (X : String) (nps : List (String × String))
    (hre : cfg.raise_errors = false)
    (hfs : tr.from_subject = Option.some X)
    (hno : ∀ t ∈ cfg.transformers, t.target ≠ X)
    (hnps : assemble_properties cfg.metadata tr.properties_of row i tr.target = Except.ok nps) :
    ∀ (vals : List String) (acc : RowResult),
      ∃ r, process_values cfg row i snid tr acc vals = Except.ok r ∧
           r.edges = acc.edges ∧
           countErr Err.config r.errors =
             countErr Err.config acc.errors + (vals.filter (fun v => !(v == ""))).length := by
  intro vals
  induction vals with
  | nil => intro acc; exact ⟨acc, rfl, rfl, by simp⟩
  | cons v rest ih =>
    intro acc
    by_cases hv : v = ""
    · subst hv
      obtain ⟨r, hr, he, hc⟩ := ih { acc with errors := acc.errors ++ [Err.transformerData] }
      refine ⟨r, ?_, he, ?_⟩
      · unfold process_values
        rw [process_value_empty cfg row i snid tr acc hre]
        exact hr
      · rw [hc]
        dsimp only
        rw [countErr_append_single]
        simp [List.filter_cons]
    · have hb : (v == "") = false := beq_eq_false_iff_ne.mpr hv
      obtain ⟨r, hr, he, hc⟩ := ih { acc with
        nodes := acc.nodes ++
          [(pyNodeId (make_id cfg.type_affix cfg.type_affix_sep tr.target v), tr.target, nps)],
        errors := acc.errors ++ [Err.config] }
      refine ⟨r, ?_, he, ?_⟩
      · unfold process_values
        rw [process_value_no_match cfg row i snid tr X nps acc v hre hfs hno hnps hv]
        exact hr
      · rw [hc]
        dsimp only
        rw [countErr_append_single]
        simp [List.filter_cons, hb]
        omega

/-- Claim C1: for a mapping with subject type Gene extracted by a map
transformer from column gene_id, one structural map transformer on column
disease_id to target type Disease via edge ASSOCIATED_WITH, affix policy suffix
with separator colon, running the engine over the single row with gene_id BRCA1
and disease_id D001 produces exactly the node tuples (BRCA1:Gene, Gene, empty)
and (D001:Disease, Disease, empty) and the edge tuple
(empty id, BRCA1:Gene, D001:Disease, ASSOCIATED_WITH, empty). -/
theorem claim_C1 :
    run cfgC1 [rowC1] =
      Except.ok ([("BRCA1:Gene", "Gene", []), ("D001:Disease", "Disease", [])],
                 [("", "BRCA1:Gene", "D001:Disease", "ASSOCIATED_WITH", [])],
                 []) := rfl

/-- Claim C2: for every row, if the subject transformer yields more than one
value, the engine raises a transformer-interface error (raise mode) or records
one in the error list (collect mode); it never continues silently. -/
theorem claim_C2 (cfg : Config) (row : Row) (i : Nat) (ids : List String)
    (hcall : cfg.subject_transformer.call row i = (ids, Option.none))
    (hlen : 1 < ids.length) :
    (cfg.raise_errors = true → process_row cfg row i = Except.error Err.transformerInterface) ∧
    (cfg.raise_errors = false → ∀ r, process_row cfg row i = Except.ok r →
      Err.transformerInterface ∈ r.errors) := by
  have hrow : process_row cfg row i = process_row_with_ids cfg row i ids := by
    unfold process_row
    rw [hcall]
  constructor
  · intro hraise
    rw [hrow]
    unfold process_row_with_ids
    rw [if_pos hlen, hraise]
    rfl
  · intro hraise r hr
    rw [hrow] at hr
    unfold process_row_with_ids at hr
    rw [if_pos hlen, hraise] at hr
    cases ids with
    | nil => exact absurd hlen (by decide)
    | cons a rest =>
      unfold emit_error at hr
      dsimp only [List.head?] at hr
      rw [make_idE_false] at hr
      cases hmk : make_id cfg.type_affix cfg.type_affix_sep cfg.subject_transformer.target a with
      | some snid =>
        rw [hmk] at hr
        dsimp only at hr
        split at hr
        · exact Except.noConfusion hr
        · obtain ⟨ext, hext⟩ := transformer_loop_errors_ext cfg row i snid _ _ r hr
          rw [hext]
          simp
      | none =>
        rw [hmk] at hr
        dsimp only [emit_error] at hr
        obtain ⟨ext, hext⟩ := transformer_loop_errors_ext cfg row i "None" _ _ r hr
        rw [hext]
        simp

/-- Witness for claim C2: a subject map transformer over two columns yields two
values on the witness row, and in raise mode the engine raises the
transformer-interface error. -/
theorem claim_C2_witness :
    cfg2.subject_transformer.call row2 0 = (["A", "B"], Option.none) ∧
    1 < (["A", "B"] : List String).length ∧
    process_row cfg2 row2 0 = Except.error Err.transformerInterface :=
  ⟨rfl, by decide, (claim_C2 cfg2 row2 0 ["A", "B"] rfl (by decide)).1 rfl⟩

/-- Claim C3 (code bug): the cat transformer with columns a, b over the row
with a = X and b = Y yields the two values X and XY, one per column (the
running concatenation), instead of the single full concatenation XY announced
by its own docstring and the spec. -/
theorem claim_C3 : cat_call passValidator ["a", "b"] rowC3 = (["X", "XY"], Option.none) := rfl

/-- Counterexample for claim C4 as stated, refuting both of its clauses at
concrete inputs: the map transformer yields the string i-t-quote-s unchanged
while its quote-sanitized form differs (yielded values are not quote-sanitized
by create), and in raise mode a value failing output validation makes create
raise the DataValidationError instead of recording it. -/
theorem claim_C4_counterexample :
    map_call passValidator ["c"] [("c", quotedSample)] = ([quotedSample], Option.none) ∧
    replaceQuotes quotedSample ≠ quotedSample ∧
    createE true (fun _ => false) "x" = Except.error Err.dataValidation :=
  ⟨rfl, by decide, rfl⟩

/-- Claim C4 (amended): every value yielded by a transformer has passed through
create and is the plain stringification of the extracted item (no quote
sanitization there, the single-quote-to-backtick replacement being applied only
when values are stored as properties by the properties step); a value that
fails output validation is not yielded, and its DataValidationError is passed
to the error manager, which raises it in raise mode (aborting the row) and in
collect mode only logs it, the value being suppressed without an entry in the
run error list. -/
theorem claim_C4 (ov : String → Bool) (item : String) (row : Row) (i : Nat) (name v : String) :
    (∀ r, create ov item = Option.some r → r = item) ∧
    (ov item = false →
      createE true ov item = Except.error Err.dataValidation ∧
      createE false ov item = Except.ok Option.none) ∧
    prop_loop row i [] [PropSpec.mk (fun _ _ => ([v], Option.none)) name] =
      Except.ok [(name, replaceQuotes v)] := by
  refine ⟨?_, ?_, rfl⟩
  · intro r h
    unfold create at h
    cases ho : ov item
    · rw [ho] at h; exact Option.noConfusion h
    · rw [ho] at h; exact (Option.some.inj h).symm
  · intro hno
    have hc : create ov item = Option.none := by
      unfold create
      rw [hno]
    constructor
    · unfold createE
      rw [hc]
      rfl
    · unfold createE
      rw [hc]
      rfl

/-- Witness for claim C4: a failing validator raises the validation error in
raise mode and suppresses the value in collect mode. -/
theorem claim_C4_witness :
    ((fun _ : String => false) "y") = false ∧
    createE true (fun _ => false) "y" = Except.error Err.dataValidation ∧
    createE false (fun _ => false) "y" = Except.ok Option.none :=
  ⟨rfl, ((claim_C4 (fun _ => false) "y" [] 0 "p" "q").2.1 rfl).1,
   ((claim_C4 (fun _ => false) "y" [] 0 "p" "q").2.1 rfl).2⟩

/-- Claim C5: declaring an edge type with target A and re-declaring the same
name with target B leaves a registered descriptor whose target list is exactly
A then B, appended in place, with the first declaration source type and fields
kept. -/
theorem claim_C5 (reg : Registry) (name src1 src2 A B : String) (f1 f2 : List (String × String))
    (h : lookupType reg name = Option.none) :
    ∃ r1 d1,
      make_edge_class reg name src1 A f1 = Except.ok (r1, d1) ∧
      make_edge_class r1 name src2 B f2 =
        Except.ok (setType r1 name (TypeDescr.edge src1 [A, B] f1), TypeDescr.edge src1 [A, B] f1) ∧
      lookupType (setType r1 name (TypeDescr.edge src1 [A, B] f1)) name =
        Option.some (TypeDescr.edge src1 [A, B] f1) := by
  refine ⟨reg ++ [(name, TypeDescr.edge src1 [A] f1)], TypeDescr.edge src1 [A] f1, ?_, ?_, ?_⟩
  · unfold make_edge_class
    rw [h]
  · unfold make_edge_class
    rw [lookupType_append_self reg name _ h]
    rfl
  · exact lookupType_setType _ _ _

/-- Witness for claim C5: two declarations of edge E in the empty registry. -/
theorem claim_C5_witness :
    lookupType [] "E" = Option.none ∧
    (∃ r1 d1,
      make_edge_class [] "E" "S1" "A" [] = Except.ok (r1, d1) ∧
      make_edge_class r1 "E" "S2" "B" [] =
        Except.ok (setType r1 "E" (TypeDescr.edge "S1" ["A", "B"] []), TypeDescr.edge "S1" ["A", "B"] []) ∧
      lookupType (setType r1 "E" (TypeDescr.edge "S1" ["A", "B"] [])) "E" =
        Option.some (TypeDescr.edge "S1" ["A", "B"] [])) :=
  ⟨rfl, claim_C5 [] "E" "S1" "S2" "A" "B" [] [] rfl⟩

/-- Claim C6: node type declaration is idempotent: an already registered name
returns the existing descriptor and leaves the registry unchanged (so no field
is ever lost by re-declaration), while a first declaration registers a
descriptor whose fields are exactly the requested property field names. -/
theorem claim_C6 (reg : Registry) (name : String) (properties : List (String × String)) :
    (∀ d, lookupType reg name = Option.some d → make_node_class reg name properties = (reg, d)) ∧
    (lookupType reg name = Option.none →
      make_node_class reg name properties =
        (reg ++ [(name, TypeDescr.node (properties.map (fun p => p.2)))],
         TypeDescr.node (properties.map (fun p => p.2))) ∧
      lookupType (reg ++ [(name, TypeDescr.node (properties.map (fun p => p.2)))]) name =
        Option.some (TypeDescr.node (properties.map (fun p => p.2)))) := by
  constructor
  · intro d h
    unfold make_node_class
    rw [h]
  · intro h
    constructor
    · unfold make_node_class
      rw [h]
    · exact lookupType_append_self _ _ _ h

/-- Witness for claim C6: re-declaring Gene with a new property returns the
existing descriptor and keeps the registry unchanged. -/
theorem claim_C6_witness :
    lookupType regC6 "Gene" = Option.some (TypeDescr.node ["p1"]) ∧
    make_node_class regC6 "Gene" [("k", "p2")] = (regC6, TypeDescr.node ["p1"]) :=
  ⟨rfl, (claim_C6 regC6 "Gene" [("k", "p2")]).1 (TypeDescr.node ["p1"]) rfl⟩

/-- Claim C7: every identifier constructed by make_id is the type name, the
separator and the value joined as ty-sep-v under prefix, v-sep-ty under suffix,
and v alone under none; and construction is deterministic in (policy,
separator, type, value). -/
theorem claim_C7 (sep ty v : String) :
    (∀ id, make_id TypeAffixes.pre sep ty v = Option.some id → id = ty ++ sep ++ v) ∧
    (∀ id, make_id TypeAffixes.suffix sep ty v = Option.some id → id = v ++ sep ++ ty) ∧
    (∀ id, make_id TypeAffixes.none sep ty v = Option.some id → id = v) ∧
    (∀ a : TypeAffixes, make_id a sep ty v = make_id a sep ty v) := by
  refine ⟨?_, ?_, ?_, fun _ => rfl⟩
  all_goals
    intro id h
    unfold make_id at h
    dsimp only [affix_id] at h
    split at h
    · exact Option.noConfusion h
    · exact (Option.some.inj h).symm

/-- Witness for claim C7: the suffix policy with separator colon on type Gene
and value BRCA1 yields BRCA1:Gene. -/
theorem claim_C7_witness :
    make_id TypeAffixes.suffix ":" "Gene" "BRCA1" = Option.some "BRCA1:Gene" ∧
    "BRCA1:Gene" = "BRCA1" ++ ":" ++ "Gene" :=
  ⟨rfl, (claim_C7 ":" "Gene" "BRCA1").2.1 "BRCA1:Gene" rfl⟩

/-- Counterexample for claim C8 as stated: in collect mode, a structural
transformer with from_subject X matched by no transformer, yielding two valid
values for the row, records two configuration errors, not exactly one (and
zero edges). -/
theorem claim_C8_counterexample :
    (process_row cfgC8 rowC8 0).map (fun r => (countErr Err.config r.errors, r.edges)) =
      Except.ok (2, ([] : List EdgeTuple)) := rfl

/-- Claim C8 (amended): for every row processed in collect mode with a
structural transformer declaring from_subject X where no transformer in the
list (itself included) has target type X, and whose property sub-transformers
succeed, the engine produces zero edges for that transformer and one
configuration error per valid (non-empty) value it yields, hence exactly one
when it yields exactly one valid value. -/
theorem claim_C8 (cfg : Config) (row : Row) (i : Nat) (snid : String) (tr : Transformer)
    (acc : RowResult) (vals : List String) (X : String)
    (hre : cfg.raise_errors = false)
    (hfs : tr.from_subject = Option.some X)
    (hno : ∀ t ∈ cfg.transformers, t.target ≠ X)
    (hprops : ∀ ps ∈ tr.properties_of, (ps.extract row i).2 = Option.none)
    (_hcall : tr.call row i = (vals, Option.none)) :
    ∃ r, process_values cfg row i snid tr acc vals = Except.ok r ∧
         r.edges = acc.edges ∧
         countErr Err.config r.errors =
           countErr Err.config acc.errors + (vals.filter (fun v => !(v == ""))).length := by
  obtain ⟨nps, hnps⟩ := assemble_properties_ok cfg.metadata tr.properties_of row i tr.target hprops
  exact process_values_no_match cfg row i snid tr X nps hre hfs hno hnps vals acc

/-- Witness for claim C8: the transformer trC8 yields exactly one valid value
on the witness row, and processing it produces zero edges and one config
error. -/
theorem claim_C8_witness :
    cfgC8.raise_errors = false ∧
    trC8.from_subject = Option.some "X" ∧
    (∀ t ∈ cfgC8.transformers, t.target ≠ "X") ∧
    (∀ ps ∈ trC8.properties_of, (ps.extract rowC8w 0).2 = Option.none) ∧
    trC8.call rowC8w 0 = (["A"], Option.none) ∧
    (∃ r, process_values cfgC8 rowC8w 0 "G:Gene" trC8 accC8 ["A"] = Except.ok r ∧
      r.edges = accC8.edges ∧
      countErr Err.config r.errors =
        countErr Err.config accC8.errors + ((["A"] : List String).filter (fun v => !(v == ""))).length) :=
  ⟨rfl, rfl, by decide, by simp [trC8], rfl,
   claim_C8 cfgC8 rowC8w 0 "G:Gene" trC8 accC8 ["A"] "X" rfl rfl (by decide) (by simp [trC8]) rfl⟩

/-- Claim C9: when the subject transformer yields zero values for a row, the
engine indexes the empty id list without any guard and row processing aborts
with an uncaught IndexError rather than a recorded error, for every
configuration, including collect mode. -/
theorem claim_C9 (cfg : Config) (row : Row) (i : Nat)
    (hcall : cfg.subject_transformer.call row i = ([], Option.none)) :
    process_row cfg row i = Except.error Err.indexError := by
  unfold process_row
  rw [hcall]
  rfl

/-- Witness for claim C9: an empty subject cell makes the map subject
transformer yield zero values, and the collect-mode run still aborts with the
IndexError. -/
theorem claim_C9_witness :
    cfg9.subject_transformer.call row9 0 = ([], Option.none) ∧
    cfg9.raise_errors = false ∧
    process_row cfg9 row9 0 = Except.error Err.indexError :=
  ⟨rfl, rfl, claim_C9 cfg9 row9 0 rfl⟩

/-- Claim C10: make_id never returns the empty string: every constructed
identifier is non-empty, and on a falsy identifier the declaration error is
raised in raise mode or only logged (returning None) in collect mode; in
particular the none affix policy on an empty extracted value yields an error,
not an empty identifier. -/
theorem claim_C10 (a : TypeAffixes) (sep ty v : String) :
    (∀ id, make_id a sep ty v = Option.some id → id ≠ "") ∧
    (make_id a sep ty v = Option.none →
      make_idE true a sep ty v = Except.error Err.declaration ∧
      make_idE false a sep ty v = Except.ok Option.none) ∧
    make_id TypeAffixes.none sep ty "" = Option.none := by
  refine ⟨?_, ?_, rfl⟩
  · intro id h
    unfold make_id at h
    split at h
    · exact Option.noConfusion h
    · rename_i hne
      intro hid
      exact hne ((Option.some.inj h).trans hid)
  · intro h
    unfold make_idE
    rw [h]
    exact ⟨rfl, rfl⟩

/-- Witness for claim C10: a constructed identifier is non-empty, and the none
policy on the empty value errors in both modes. -/
theorem claim_C10_witness :
    make_id TypeAffixes.suffix ":" "Gene" "BRCA1" = Option.some "BRCA1:Gene" ∧
    "BRCA1:Gene" ≠ "" ∧
    make_idE true TypeAffixes.none ":" "Gene" "" = Except.error Err.declaration ∧
    make_idE false TypeAffixes.none ":" "Gene" "" = Except.ok Option.none :=
  ⟨rfl, (claim_C10 TypeAffixes.suffix ":" "Gene" "BRCA1").1 "BRCA1:Gene" rfl,
   ((claim_C10 TypeAffixes.none ":" "Gene" "").2.1 rfl).1,
   ((claim_C10 TypeAffixes.none ":" "Gene" "").2.1 rfl).2⟩
